import Mathlib

/-!
Verification of the Product Fairy generation-orchestration client
(frontend/src/App.jsx and frontend/src/lib/imageDb.js), shallowly embedded
in Lean.  Pure logic (filename derivation, resume filtering) becomes Lean
functions; the React state handlers become explicit state-transition
functions on a `ClientState` record.
-/

namespace ProductFairy

/-- JavaScript `a || b` on an optional string: `undefined`/absent and the
empty string are falsy, so both fall through to the default. -/
def jsOr : Option String → String → String
  | none, b => b
  | some s, b => if s = "" then b else s

/-- JavaScript `s.trim()`: drop leading and trailing whitespace. -/
def jsTrim (s : String) : String :=
  ⟨((s.data.dropWhile Char.isWhitespace).reverse.dropWhile Char.isWhitespace).reverse⟩

/-- `String(x).replace(dashRegexGlobal, '')` on the character list: remove
every dash, keep everything else, preserving order. -/
def stripDashes : List Char → List Char
  | [] => []
  | c :: cs => if c = '-' then stripDashes cs else c :: stripDashes cs

/-- String wrapper for `stripDashes`. -/
def stripDashesStr (s : String) : String :=
  ⟨stripDashes s.data⟩

/-- A product/variant record as held in `generatedProducts` (the fields the
core logic reads; all optional, since rows may omit them). -/
structure Product where
  ProductNumber : Option String
  ProductName : Option String
  GenderCode : Option String
  ColorCode : Option String
  ColorName : Option String
deriving DecidableEq, Repr

/-- The client-side filename derivation from `handleResume`
(App.jsx lines 652-655):
`const pn = String(p.ProductNumber || '').replace(dashRegexGlobal, '');`
`const fn = ` followed by the template string joining `pn`,
`p.GenderCode || 'U'` and `p.ColorCode || ''`. -/
def deriveFilename (p : Product) : String :=
  stripDashesStr (jsOr p.ProductNumber "") ++ jsOr p.GenderCode "U" ++ jsOr p.ColorCode ""

/-- The spec-worded derivation, for refinement comparison only: strip every
non-alphanumeric character from `productNumber`, default `genderCode` to the
neutral code and `colorCode` to the empty string, then append the fixed
image extension. -/
def deriveFilenameSpec (p : Product) : String :=
  ⟨(jsOr p.ProductNumber "").data.filter (fun c => c.isAlphanum)⟩
    ++ jsOr p.GenderCode "U" ++ jsOr p.ColorCode "" ++ ".jpg"

/-- Modelled from the spec: the backend (backend/main.py, absent from the
frontend sources) stores each generated artifact under the derived stem plus
the fixed `.jpg` extension, stripping dashes from the product number
(README: "Output images are named
`\x7bProductNumber\x7d\x7bGenderCode\x7d\x7bColorCode\x7d.jpg` with dashes
stripped from the product number"); the filenames carried by `image` events
are the bare stems (the gallery appends `.jpg` when downloading). -/
def backendArtifactName (p : Product) : String :=
  deriveFilename p ++ ".jpg"

/-- The effective key actually concatenated by `deriveFilename`:
dash-stripped product number, defaulted gender code, defaulted color code. -/
def filenameKey (p : Product) : String × String × String :=
  (stripDashesStr (jsOr p.ProductNumber ""), jsOr p.GenderCode "U", jsOr p.ColorCode "")

/-- The resume computation from `handleResume` (App.jsx lines 651-656):
`const completedSet = new Set(generationSession.completedFilenames);`
`const remaining = generationSession.products.filter((p) => ... !completedSet.has(fn))`. -/
def resumeRemaining (completedFilenames : List String) (products : List Product) : List Product :=
  products.filter (fun p => !(completedFilenames.contains (deriveFilename p)))

/-- One entry of the `images` gallery state / one `image` SSE event payload
(App.jsx lines 520-530). -/
structure ImageRec where
  filename : String
  productName : String
  colorName : String
  productNumber : String
  genderCode : String
  colorCode : String
  prompt : String
  data : String
deriving DecidableEq, Repr

/-- The discriminated SSE events dispatched by the client switch
(App.jsx lines 511-545). -/
inductive SseEvent where
  | progress (current total : Nat) (product : String)
  | image (img : ImageRec)
  | error (message : String)
  | complete
deriving DecidableEq, Repr

/-- The transient progress cursor. -/
structure Progress where
  current : Nat
  total : Nat
  product : String
deriving DecidableEq, Repr

/-- The persisted generation session (the ledger) written to
`pf-generation-session`; `products` is `null` for the CSV mode. -/
structure Session where
  products : Option (List Product)
  photoStyle : Option String
  completedFilenames : List String
  totalCount : Nat
  mode : String
deriving DecidableEq, Repr

/-- The slice of the App component's state that the orchestration-mirror
logic reads and writes. -/
structure ClientState where
  isGenerating : Bool
  progress : Progress
  images : List ImageRec
  error : String
  isComplete : Bool
  generationSession : Option Session
  showResumeBanner : Bool
  regeneratingFilename : Option String
deriving DecidableEq, Repr

/-- The initial `useState` values of the relevant fields. -/
def initialClientState : ClientState :=
  { isGenerating := false
    progress := ⟨0, 0, ""⟩
    images := []
    error := ""
    isComplete := false
    generationSession := none
    showResumeBanner := false
    regeneratingFilename := none }

/-- One step of the SSE switch in `handleGenerateImages`
(App.jsx lines 511-545): `progress` updates the cursor; `image` appends to
the gallery and, when a session exists, appends the filename to its
completed list; `error` appends to the newline-joined error string;
`complete` marks completion and clears the session. -/
def applyEvent (s : ClientState) : SseEvent → ClientState
  | .progress current total product =>
      { s with progress := ⟨current, total, product⟩ }
  | .image img =>
      { s with
          images := s.images ++ [img]
          generationSession := s.generationSession.map fun sess =>
            { sess with completedFilenames := sess.completedFilenames ++ [img.filename] } }
  | .error message =>
      { s with error := if s.error = "" then message else s.error ++ "\n" ++ message }
  | .complete =>
      { s with isComplete := true, generationSession := none }

/-- Folding a whole event stream through the switch. -/
def runEvents (s : ClientState) (events : List SseEvent) : ClientState :=
  events.foldl applyEvent s

/-- The synchronous prefix of `handleGenerateImages`
(App.jsx lines 454-474): the guard returns unchanged with no request
issued; otherwise the run starts (second component `true`), the gallery is
cleared unless resuming, the cursor/error/completion/banner state is reset,
and a fresh store-builder session is written unless resuming. -/
def handleGenerateImages (s : ClientState) (apiKey photoStyle : String)
    (generatedProducts : List Product) (productsToGenerate : Option (List Product))
    (isResume : Bool) : ClientState × Bool :=
  let products := productsToGenerate.getD generatedProducts
  if apiKey = "" ∨ products.isEmpty ∨ jsTrim photoStyle = "" then (s, false)
  else
    ({ s with
        isGenerating := true
        images := if isResume then s.images else []
        progress := ⟨0, products.length, ""⟩
        error := ""
        isComplete := false
        showResumeBanner := false
        generationSession :=
          if isResume then s.generationSession
          else some ⟨some generatedProducts, some photoStyle, [], generatedProducts.length, "store-builder"⟩ },
      true)

/-- The session written by the CSV-mode `handleGenerate` (App.jsx line 153):
`setGenerationSession(products null, photoStyle null, completedFilenames [],
totalCount rowCount, mode csv)`. -/
def csvStartSession (rowCount : Nat) : Session :=
  ⟨none, none, [], rowCount, "csv"⟩

/-- The `catch` clause of a generation run (App.jsx lines 552-557): an
`AbortError` (user cancellation) is deliberately ignored; any other failure
replaces the error text. -/
def catchBranch (s : ClientState) (aborted : Bool) (message : String) : ClientState :=
  if aborted then s
  else { s with error := if message = "" then "Failed to generate images" else message }

/-- The `finally` clause (App.jsx lines 558-561). -/
def finallyBranch (s : ClientState) : ClientState :=
  { s with isGenerating := false }

/-- A run's epilogue: catch then finally. -/
def finishGeneration (s : ClientState) (aborted : Bool) (message : String) : ClientState :=
  finallyBranch (catchBranch s aborted message)

/-- `handleResume` (App.jsx lines 646-665).  The second component is
`some remaining` when `handleGenerateImages(remaining, true)` is invoked,
`none` when no generation is started. -/
def handleResume (s : ClientState) : ClientState × Option (List Product) :=
  match s.generationSession with
  | none => ({ s with showResumeBanner := false }, none)
  | some sess =>
    if sess.mode = "store-builder" then
      let remaining := resumeRemaining sess.completedFilenames (sess.products.getD [])
      if remaining.isEmpty then
        ({ s with showResumeBanner := false, generationSession := none }, none)
      else (s, some remaining)
    else ({ s with showResumeBanner := false }, none)

/-- `handleDismissResume` (App.jsx lines 667-670). -/
def handleDismissResume (s : ClientState) : ClientState :=
  { s with showResumeBanner := false, generationSession := none }

/-- The synchronous prefix of `handleRegenerate` (App.jsx lines 604-607):
the guard `if (!apiKey || regeneratingFilename) return;` rejects the call
with no state change and no request (second component `false`); otherwise
the pending marker is set and the error cleared. -/
def handleRegenerate (s : ClientState) (apiKey filename : String) : ClientState × Bool :=
  if apiKey = "" ∨ s.regeneratingFilename.isSome then (s, false)
  else ({ s with regeneratingFilename := some filename, error := "" }, true)

/-- The replacement record built on regeneration success
(App.jsx lines 630-634): spread of the old image with the new data and, via
`result.prompt || image.prompt`, the new prompt when truthy. -/
def regeneratedImage (image : ImageRec) (resultData : String)
    (resultPrompt : Option String) : ImageRec :=
  { image with data := resultData, prompt := jsOr resultPrompt image.prompt }

/-- The gallery update on regeneration success (App.jsx line 636):
`setImages(prev mapped: entry with matching filename becomes newImg)`. -/
def regenerateSuccessImages (images : List ImageRec) (filename : String)
    (image : ImageRec) (resultData : String) (resultPrompt : Option String) : List ImageRec :=
  let newImg := regeneratedImage image resultData resultPrompt
  images.map fun img => if img.filename = filename then newImg else img

/-- The IndexedDB image store, keyed by filename (imageDb.js: an object
store with `keyPath: filename`). -/
def ImageStore : Type := String → Option ImageRec

/-- `db.put(STORE_NAME, image)`: upsert under the record's own key. -/
def putImage (store : ImageStore) (img : ImageRec) : ImageStore :=
  fun k => if k = img.filename then some img else store k

/-- `replaceImage(filename, newImage)` (imageDb.js lines 30-33):
`db.put` of the spread of `newImage` with `filename` forced. -/
def replaceImage (store : ImageStore) (filename : String) (newImage : ImageRec) : ImageStore :=
  putImage store { newImage with filename := filename }

/-- The spec's running example variant: CNC-P1000 / M / NAV. -/
def cncVariant : Product :=
  ⟨some "CNC-P1000", some "Performance Polo", some "M", some "NAV", some "Navy"⟩

/-- A sibling color variant of the same product. -/
def cncFollower : Product :=
  ⟨some "CNC-P1000", some "Performance Polo", some "M", some "WHT", some "White"⟩

/-- A variant whose product number contains a non-alphanumeric character
other than a dash. -/
def dottedVariant : Product :=
  ⟨some "CNC.P1000", some "Performance Polo", some "M", some "NAV", some "Navy"⟩

/-- Two variants with distinct raw key triples that nevertheless derive the
same filename once dashes are removed. -/
def collideA : Product :=
  ⟨some "P-1", some "Tee", some "M", some "NAV", some "Navy"⟩

/-- See `collideA`. -/
def collideB : Product :=
  ⟨some "P1", some "Tee", some "M", some "NAV", some "Navy"⟩

/-- A generated image record for `cncVariant`. -/
def cncImage : ImageRec :=
  ⟨"CNCP1000MNAV", "Performance Polo", "Navy", "CNC-P1000", "M", "NAV", "flat lay of a navy polo", "base64data"⟩

/-- A generated image record for `cncFollower`. -/
def cncImageWht : ImageRec :=
  ⟨"CNCP1000MWHT", "Performance Polo", "White", "CNC-P1000", "M", "WHT", "flat lay of a white polo", "base64data2"⟩

/-- A persisted session interrupted after one of two images. -/
def interruptedSession : Session :=
  ⟨some [cncVariant, cncFollower], some "studio", ["CNCP1000MNAV"], 2, "store-builder"⟩

/-- Client state on reload with `interruptedSession` detected. -/
def interruptedState : ClientState :=
  { initialClientState with generationSession := some interruptedSession, showResumeBanner := true }

/-- A persisted session in which every variant already completed. -/
def completedSession : Session :=
  ⟨some [cncVariant, cncFollower], some "studio", ["CNCP1000MNAV", "CNCP1000MWHT"], 2, "store-builder"⟩

/-- Client state on reload with `completedSession` detected. -/
def completedState : ClientState :=
  { initialClientState with generationSession := some completedSession, showResumeBanner := true }

/-- Client state with a CSV-mode session (no variant list retained). -/
def csvState : ClientState :=
  { initialClientState with generationSession := some (csvStartSession 25), showResumeBanner := true }

/-- Client state with a regeneration already pending. -/
def regenBusyState : ClientState :=
  { initialClientState with regeneratingFilename := some "CNCP1000MNAV", images := [cncImage, cncImageWht] }

/-- An empty IndexedDB image store. -/
def emptyStore : ImageStore := fun _ => none

/-- A short event stream with no `complete` event (a cancelled run). -/
def sampleEvents : List SseEvent :=
  [.progress 1 2 "Performance Polo", .image cncImage, .error "429 rate limited"]

end ProductFairy

namespace ProductFairy

theorem stripDashes_eq_filter (l : List Char) :
    stripDashes l = l.filter (fun c => !(c == '-')) := by
  induction l with
  | nil => rfl
  | cons c cs ih =>
    by_cases h : c = '-' <;> simp [stripDashes, h, ih]

theorem string_eq_of_data_eq {s t : String} (h : s.data = t.data) : s = t := by
  cases s; cases t; exact congrArg String.mk h

theorem deriveFilename_data (p : Product) :
    (deriveFilename p).data
      = (jsOr p.ProductNumber "").data.filter (fun c => !(c == '-'))
        ++ (jsOr p.GenderCode "U").data ++ (jsOr p.ColorCode "").data := by
  simp [deriveFilename, String.data_append, stripDashesStr, stripDashes_eq_filter]

theorem key_eq_of_deriveFilename_eq (p q : Product)
    (hpn : (stripDashesStr (jsOr p.ProductNumber "")).length
      = (stripDashesStr (jsOr q.ProductNumber "")).length)
    (hg : (jsOr p.GenderCode "U").length = (jsOr q.GenderCode "U").length)
    (h : deriveFilename p = deriveFilename q) : filenameKey p = filenameKey q := by
  have hd := congrArg String.data h
  rw [deriveFilename, deriveFilename, String.data_append, String.data_append,
    String.data_append, String.data_append, List.append_assoc, List.append_assoc] at hd
  obtain ⟨ha, hbc⟩ := List.append_inj hd hpn
  obtain ⟨hb, hc⟩ := List.append_inj hbc hg
  have e1 := string_eq_of_data_eq ha
  have e2 := string_eq_of_data_eq hb
  have e3 := string_eq_of_data_eq hc
  simp [filenameKey, e1, e2, e3]

/-- C1: corrected.  Counterexample to the claim as stated: on a product
number containing a non-alphanumeric character other than a dash, the
client-side derivation used by the resume computation keeps the character
(it removes dashes only) and appends no extension, so it does not compute
the spec-worded function (strip all non-alphanumerics, then append the
fixed image extension). -/
theorem c1_counterexample :
    deriveFilename dottedVariant = "CNC.P1000MNAV" ∧
    deriveFilenameSpec dottedVariant = "CNCP1000MNAV.jpg" ∧
    deriveFilename dottedVariant ≠ deriveFilenameSpec dottedVariant := by
  refine ⟨by decide, by decide, ?_⟩
  decide

/-- C1 (amended): the derived filename stem equals the product number with
every dash (and only dashes) removed, concatenated with the gender code
(defaulting to the neutral code `U` when absent or empty) and the color
code (defaulting to the empty string); the stored artifact name appends the
fixed `.jpg` extension to this stem.  On CNC-P1000 / M / NAV the stem is
`CNCP1000MNAV` and the artifact is `CNCP1000MNAV.jpg`. -/
theorem c1_filename_derivation_amended :
    (∀ p : Product,
      (deriveFilename p).data
        = (jsOr p.ProductNumber "").data.filter (fun c => !(c == '-'))
          ++ (jsOr p.GenderCode "U").data ++ (jsOr p.ColorCode "").data) ∧
    deriveFilename cncVariant = "CNCP1000MNAV" ∧
    backendArtifactName cncVariant = "CNCP1000MNAV.jpg" :=
  ⟨deriveFilename_data, by decide, by decide⟩

/-- C2: confirmed.  The resume computation returns exactly the sublist of
the original variant list, in input order, of variants whose derived
filename is not in the completed set; with an empty completed set it is the
identity, and it is idempotent. -/
theorem c2_resume_computation (C : List String) (L : List Product) :
    (resumeRemaining C L).Sublist L ∧
    (∀ p : Product, p ∈ resumeRemaining C L ↔ p ∈ L ∧ deriveFilename p ∉ C) ∧
    resumeRemaining [] L = L ∧
    resumeRemaining C (resumeRemaining C L) = resumeRemaining C L := by
  refine ⟨List.filter_sublist L, fun p => ?_, ?_, ?_⟩
  · simp [resumeRemaining, List.mem_filter]
  · simp [resumeRemaining]
  · simp [resumeRemaining, List.filter_filter]

/-- C3: corrected.  Counterexample to the claim as stated: `collideA` and
`collideB` are distinct variants with distinct raw
(productNumber, genderCode, colorCode) triples, yet they derive the same
filename, because dash-stripping conflates `P-1` with `P1`. -/
theorem c3_counterexample :
    collideA ≠ collideB ∧
    (collideA.ProductNumber, collideA.GenderCode, collideA.ColorCode)
      ≠ (collideB.ProductNumber, collideB.GenderCode, collideB.ColorCode) ∧
    deriveFilename collideA = deriveFilename collideB := by
  decide

/-- C3 (amended): dash-stripping (hence the whole sanitisation of the
stem) is idempotent; and filename derivation is injective over any variant
list in which no two variants share the effective key triple
(dash-stripped product number, defaulted gender code, defaulted color
code), provided the stripped product numbers share one length and the
gender codes share one length (as the single-letter codes M/W/U do). -/
theorem c3_derivation_idempotent_injective_amended :
    (∀ s : String, stripDashesStr (stripDashesStr s) = stripDashesStr s) ∧
    (∀ L : List Product,
      (∀ p ∈ L, ∀ q ∈ L,
        (stripDashesStr (jsOr p.ProductNumber "")).length
          = (stripDashesStr (jsOr q.ProductNumber "")).length ∧
        (jsOr p.GenderCode "U").length = (jsOr q.GenderCode "U").length) →
      L.Pairwise (fun p q => filenameKey p ≠ filenameKey q) →
      L.Pairwise (fun p q => deriveFilename p ≠ deriveFilename q)) := by
  constructor
  · intro s
    apply string_eq_of_data_eq
    simp [stripDashesStr, stripDashes_eq_filter, List.filter_filter]
  · intro L hlen hpair
    refine List.Pairwise.imp_of_mem (fun hp hq hne hcontra => ?_) hpair
    exact hne (key_eq_of_deriveFilename_eq _ _ (hlen _ hp _ hq).1 (hlen _ hp _ hq).2 hcontra)

/-- Witness for C3 (amended) on a concrete two-variant list. -/
theorem c3_derivation_idempotent_injective_amended_witness :
    stripDashesStr (stripDashesStr "CNC-P1000") = stripDashesStr "CNC-P1000" ∧
    ([cncVariant, cncFollower].Pairwise fun p q => deriveFilename p ≠ deriveFilename q) :=
  ⟨c3_derivation_idempotent_injective_amended.1 "CNC-P1000",
   c3_derivation_idempotent_injective_amended.2 [cncVariant, cncFollower] (by decide) (by decide)⟩

/-- C4: corrected.  Counterexample to the claim as stated: a resumed batch
run really starts (second component `true`), yet no session record is
created at its start — the prior record, with its non-empty
completed-filename set, is retained unchanged. -/
theorem c4_counterexample :
    (handleGenerateImages interruptedState "key" "studio" [cncVariant, cncFollower]
        (some [cncFollower]) true).2 = true ∧
    ((handleGenerateImages interruptedState "key" "studio" [cncVariant, cncFollower]
        (some [cncFollower]) true).1.generationSession.map Session.completedFilenames)
      = some ["CNCP1000MNAV"] ∧
    (["CNCP1000MNAV"] : List String) ≠ [] := by
  refine ⟨by decide, by decide, by decide⟩

/-- C4 (amended): the client maintains the session-ledger lifecycle: a
fresh session record (store-builder mode, the full variant list, empty
completed set, total count) is created when a non-resume run starts; a
resumed run retains the existing record unchanged at start; after each
image event the event's filename is appended to the session's completed
set; and the record is cleared (set to null) on the complete event and on
explicit dismissal of the resume banner. -/
theorem c4_session_lifecycle_amended (s t : ClientState) (apiKey photoStyle : String)
    (gp pr : List Product) (img : ImageRec)
    (hstart : ¬(apiKey = "" ∨ gp.isEmpty = true ∨ jsTrim photoStyle = ""))
    (hres : ¬(apiKey = "" ∨ pr.isEmpty = true ∨ jsTrim photoStyle = "")) :
    (handleGenerateImages s apiKey photoStyle gp none false).1.generationSession
      = some ⟨some gp, some photoStyle, [], gp.length, "store-builder"⟩ ∧
    (handleGenerateImages s apiKey photoStyle gp (some pr) true).1.generationSession
      = s.generationSession ∧
    (handleGenerateImages s apiKey photoStyle gp (some pr) true).2 = true ∧
    (applyEvent t (.image img)).generationSession
      = t.generationSession.map (fun sess =>
          { sess with completedFilenames := sess.completedFilenames ++ [img.filename] }) ∧
    (applyEvent t .complete).generationSession = none ∧
    (handleDismissResume t).generationSession = none ∧
    (handleDismissResume t).showResumeBanner = false := by
  have hstart' : ¬(apiKey = "" ∨ gp = [] ∨ jsTrim photoStyle = "") := by simpa using hstart
  have hres' : ¬(apiKey = "" ∨ pr = [] ∨ jsTrim photoStyle = "") := by simpa using hres
  refine ⟨?_, ?_, ?_, rfl, rfl, rfl, rfl⟩ <;>
    simp [handleGenerateImages, hstart', hres']

/-- Witness for C4 (amended) on concrete state and inputs. -/
theorem c4_session_lifecycle_amended_witness :
    ¬(("key" : String) = "" ∨ ([cncVariant, cncFollower] : List Product).isEmpty = true
        ∨ jsTrim "studio" = "") ∧
    (handleGenerateImages interruptedState "key" "studio" [cncVariant, cncFollower]
        none false).1.generationSession
      = some ⟨some [cncVariant, cncFollower], some "studio", [], 2, "store-builder"⟩ ∧
    (applyEvent interruptedState (.image cncImageWht)).generationSession
      = some ⟨some [cncVariant, cncFollower], some "studio",
          ["CNCP1000MNAV", "CNCP1000MWHT"], 2, "store-builder"⟩ ∧
    (handleDismissResume interruptedState).generationSession = none :=
  ⟨by decide,
   (c4_session_lifecycle_amended interruptedState interruptedState "key" "studio"
      [cncVariant, cncFollower] [cncFollower] cncImageWht (by decide) (by decide)).1,
   by
    rw [(c4_session_lifecycle_amended interruptedState interruptedState "key" "studio"
      [cncVariant, cncFollower] [cncFollower] cncImageWht (by decide) (by decide)).2.2.2.1]
    decide,
   (c4_session_lifecycle_amended interruptedState interruptedState "key" "studio"
      [cncVariant, cncFollower] [cncFollower] cncImageWht (by decide) (by decide)).2.2.2.2.2.1⟩

theorem runEvents_isComplete (events : List SseEvent) :
    ∀ t : ClientState, SseEvent.complete ∉ events →
      (runEvents t events).isComplete = t.isComplete := by
  induction events with
  | nil => intro t _; rfl
  | cons e es ih =>
    intro t h
    have h1 : e ≠ SseEvent.complete := fun hc => h (hc ▸ List.mem_cons_self _ _)
    have h2 : SseEvent.complete ∉ es := fun hc => h (List.mem_cons_of_mem _ hc)
    have hpres : (applyEvent t e).isComplete = t.isComplete := by
      cases e with
      | complete => exact absurd rfl h1
      | progress current total product => rfl
      | image img => rfl
      | error message => rfl
    calc (runEvents t (e :: es)).isComplete
        = (runEvents (applyEvent t e) es).isComplete := rfl
      _ = (applyEvent t e).isComplete := ih (applyEvent t e) h2
      _ = t.isComplete := hpres

/-- C5: confirmed.  A cancelled run is not an error: the abort branch of
the catch clause leaves the accumulated error state untouched, and since a
cancelled run's event stream carries no `complete` event, the completion
flag (reset when the run started) is still false at the end; the run also
ends with `isGenerating` cleared. -/
theorem c5_cancellation_not_error (s : ClientState) (apiKey photoStyle : String)
    (gp : List Product) (events : List SseEvent) (message : String)
    (hstart : ¬(apiKey = "" ∨ gp.isEmpty = true ∨ jsTrim photoStyle = ""))
    (hnc : SseEvent.complete ∉ events) :
    (finishGeneration (runEvents (handleGenerateImages s apiKey photoStyle gp none false).1
        events) true message).error
      = (runEvents (handleGenerateImages s apiKey photoStyle gp none false).1 events).error ∧
    (finishGeneration (runEvents (handleGenerateImages s apiKey photoStyle gp none false).1
        events) true message).isComplete = false ∧
    (finishGeneration (runEvents (handleGenerateImages s apiKey photoStyle gp none false).1
        events) true message).isGenerating = false := by
  have hstart' : ¬(apiKey = "" ∨ gp = [] ∨ jsTrim photoStyle = "") := by simpa using hstart
  have hstate : (handleGenerateImages s apiKey photoStyle gp none false).1.isComplete = false := by
    simp [handleGenerateImages, hstart']
  refine ⟨rfl, ?_, rfl⟩
  show (runEvents (handleGenerateImages s apiKey photoStyle gp none false).1 events).isComplete
    = false
  rw [runEvents_isComplete events _ hnc, hstate]

/-- Witness for C5 on a concrete interrupted stream. -/
theorem c5_cancellation_not_error_witness :
    SseEvent.complete ∉ sampleEvents ∧
    (finishGeneration (runEvents (handleGenerateImages initialClientState "key" "studio"
        [cncVariant, cncFollower] none false).1 sampleEvents) true "").error
      = (runEvents (handleGenerateImages initialClientState "key" "studio"
        [cncVariant, cncFollower] none false).1 sampleEvents).error ∧
    (finishGeneration (runEvents (handleGenerateImages initialClientState "key" "studio"
        [cncVariant, cncFollower] none false).1 sampleEvents) true "").isComplete = false :=
  ⟨by decide,
   (c5_cancellation_not_error initialClientState "key" "studio" [cncVariant, cncFollower]
      sampleEvents "" (by decide) (by decide)).1,
   (c5_cancellation_not_error initialClientState "key" "studio" [cncVariant, cncFollower]
      sampleEvents "" (by decide) (by decide)).2.1⟩

/-- C6: confirmed.  While a regeneration is pending (the pending marker is
non-null), any further regeneration request returns immediately with the
state unchanged and no request issued, so two regenerations never run
concurrently. -/
theorem c6_single_regeneration_slot (s : ClientState) (apiKey filename g : String)
    (h : s.regeneratingFilename = some g) :
    handleRegenerate s apiKey filename = (s, false) := by
  simp [handleRegenerate, h]

/-- Witness for C6: a second request while `CNCP1000MNAV` regenerates. -/
theorem c6_single_regeneration_slot_witness :
    regenBusyState.regeneratingFilename = some "CNCP1000MNAV" ∧
    handleRegenerate regenBusyState "key" "CNCP1000MWHT" = (regenBusyState, false) :=
  ⟨rfl, c6_single_regeneration_slot regenBusyState "key" "CNCP1000MWHT" "CNCP1000MNAV" rfl⟩

/-- C7: confirmed.  When regeneration of filename F succeeds (and the
gallery entry under F is the record that was passed in, as the gallery
does), the update replaces in place exactly the entries whose filename
equals F — each keeps its filename and identifying fields and receives the
new data and prompt — while every other entry, the length and the order
are unchanged; the persisted store replaces only the record under key F. -/
theorem c7_regeneration_frame (images : List ImageRec) (filename : String) (image : ImageRec)
    (resultData : String) (resultPrompt : Option String) (store : ImageStore)
    (hentry : ∀ img ∈ images, img.filename = filename → img = image) :
    (regenerateSuccessImages images filename image resultData resultPrompt).length
      = images.length ∧
    (∀ i : Nat, (regenerateSuccessImages images filename image resultData resultPrompt)[i]?
      = images[i]?.map (fun img =>
          if img.filename = filename then regeneratedImage img resultData resultPrompt
          else img)) ∧
    (∀ k, k ≠ filename →
      replaceImage store filename (regeneratedImage image resultData resultPrompt) k
        = store k) ∧
    replaceImage store filename (regeneratedImage image resultData resultPrompt) filename
      = some { regeneratedImage image resultData resultPrompt with filename := filename } := by
  refine ⟨by simp [regenerateSuccessImages], fun i => ?_, fun k hk => ?_, ?_⟩
  · rw [regenerateSuccessImages]
    simp only [List.getElem?_map]
    cases h : images[i]? with
    | none => rfl
    | some entry =>
      simp only [Option.map_some']
      by_cases hf : entry.filename = filename
      · have he := hentry entry (List.getElem?_mem h) hf
        rw [he]
      · simp [hf]
  · simp [replaceImage, putImage, hk]
  · simp [replaceImage, putImage]

/-- Witness for C7 on a concrete two-image gallery and empty store. -/
theorem c7_regeneration_frame_witness :
    (regenerateSuccessImages [cncImage, cncImageWht] "CNCP1000MNAV" cncImage "newdata"
        (some "new prompt")).length = 2 ∧
    replaceImage emptyStore "CNCP1000MNAV" (regeneratedImage cncImage "newdata"
        (some "new prompt")) "CNCP1000MNAV"
      = some { regeneratedImage cncImage "newdata" (some "new prompt") with
          filename := "CNCP1000MNAV" } :=
  ⟨(c7_regeneration_frame [cncImage, cncImageWht] "CNCP1000MNAV" cncImage "newdata"
      (some "new prompt") emptyStore (by decide)).1,
   (c7_regeneration_frame [cncImage, cncImageWht] "CNCP1000MNAV" cncImage "newdata"
      (some "new prompt") emptyStore (by decide)).2.2.2⟩

/-- C8: confirmed.  A stored session whose mode did not retain the variant
list (any mode other than store-builder; the CSV mode records `products`
as null with only a row count) cannot be resumed: `handleResume` hides the
banner and starts no generation. -/
theorem c8_resume_requires_variant_list (s : ClientState) (sess : Session)
    (hs : s.generationSession = some sess) (hm : sess.mode ≠ "store-builder") :
    handleResume s = ({ s with showResumeBanner := false }, none) ∧
    (∀ rowCount : Nat, (csvStartSession rowCount).products = none ∧
      (csvStartSession rowCount).mode = "csv") := by
  refine ⟨?_, fun rowCount => ⟨rfl, rfl⟩⟩
  simp [handleResume, hs, hm]

/-- Witness for C8 on a concrete CSV-mode session of 25 rows. -/
theorem c8_resume_requires_variant_list_witness :
    csvState.generationSession = some (csvStartSession 25) ∧
    (csvStartSession 25).mode ≠ "store-builder" ∧
    handleResume csvState = ({ csvState with showResumeBanner := false }, none) ∧
    (csvStartSession 25).products = none :=
  ⟨rfl, by decide,
   (c8_resume_requires_variant_list csvState (csvStartSession 25) rfl (by decide)).1,
   ((c8_resume_requires_variant_list csvState (csvStartSession 25) rfl (by decide)).2 25).1⟩

/-- C9: confirmed.  When every variant of a store-builder session already
derives a filename in the completed set, the remaining sublist is empty
and resume is a no-op: the banner is hidden, the ledger is cleared (set to
null) and no generation is started. -/
theorem c9_resume_noop_when_all_completed (s : ClientState) (sess : Session)
    (ps : List Product)
    (hs : s.generationSession = some sess) (hm : sess.mode = "store-builder")
    (hp : sess.products = some ps)
    (hall : ∀ p ∈ ps, deriveFilename p ∈ sess.completedFilenames) :
    handleResume s
      = ({ s with showResumeBanner := false, generationSession := none }, none) := by
  have hrem : resumeRemaining sess.completedFilenames ps = [] := by
    rw [resumeRemaining, List.filter_eq_nil_iff]
    intro p hpmem
    simp [hall p hpmem]
  simp [handleResume, hs, hm, hp, hrem]

/-- Witness for C9 on a concrete fully-completed session. -/
theorem c9_resume_noop_when_all_completed_witness :
    completedState.generationSession = some completedSession ∧
    handleResume completedState
      = ({ completedState with showResumeBanner := false, generationSession := none }, none) :=
  ⟨rfl,
   c9_resume_noop_when_all_completed completedState completedSession [cncVariant, cncFollower]
     rfl rfl rfl (by decide)⟩

end ProductFairy
